import Mathlib

/-!
# Verification of the skill-swap session-coordination core

Shallow embedding of the session-coordination core of the skill-swap
application: the connection loader (`fetchConnection` in
`src/pages/Meeting.tsx` and `src/hooks/useConnection.ts`), the end-meeting
transition (`endMeeting`), the chat send operation (`sendMessage`), the
connection change-feed handler (the `meeting:` channel callback), the
WebRTC signaling handlers (`src/utils/webRTCUtils.ts`,
`setupPeerConnection`), and the effect cleanup that releases resources on
exit from the meeting view.

Statuses are modelled as the strings the code compares against
("pending", "accepted", "rejected", "completed"); identifiers are opaque
strings.
-/

namespace SkillSwap

/-- The `skills` row joined by the connection query; only the fields the
core reads. `instructor_id` is the subject owner. -/
structure Skill where
  id : String
  instructor_id : String
deriving DecidableEq, Repr

/-- The `skill_connections` row (the durable session record), with the
joined `skill` row, which the query may return as null. -/
structure Connection where
  id : String
  skill_id : String
  learner_id : String
  status : String
  skill : Option Skill
deriving DecidableEq, Repr

/-- Outcome of the load operation in `fetchConnection`: the loaded record,
the "Meeting Not Found" path, or the "Unauthorized" path. -/
inductive LoadResult where
  | ok (session : Connection)
  | notFound
  | unauthorized
deriving DecidableEq, Repr

/-- The supabase query
`.eq("id", connectionId).eq("status", "accepted").maybeSingle()`:
the first row (if any) whose id matches and whose status is accepted. -/
def queryAccepted (db : List Connection) (connectionId : String) : Option Connection :=
  (db.filter (fun c => c.id == connectionId && c.status == "accepted")).head?

/-- The JS check `data.skill?.instructor_id === userId`: when `skill` is
null, `data.skill?.instructor_id` is undefined and never equals a user id. -/
def isInstructor (data : Connection) (userId : String) : Bool :=
  match data.skill with
  | some s => s.instructor_id == userId
  | none => false

/-- The function fetchConnection (Meeting.tsx lines 59-117, identically
useConnection.ts lines 34-83): query for an accepted record with the given
id; if no row, "Meeting Not Found"; if the caller is neither the learner
nor the instructor of the skill, "Unauthorized"; otherwise the record is
loaded. -/
def fetchConnection (db : List Connection) (connectionId userId : String) : LoadResult :=
  match queryAccepted db connectionId with
  | none => LoadResult.notFound
  | some data =>
    if data.learner_id ≠ userId ∧ isInstructor data userId = false then
      LoadResult.unauthorized
    else
      LoadResult.ok data

/-- The update `.update(status: "completed").eq("id", connectionId)`
applied to one row. -/
def markCompleted (connectionId : String) (c : Connection) : Connection :=
  if c.id = connectionId then { c with status := "completed" } else c

/-- The function endMeeting (Meeting.tsx lines 315-329): a no-op unless a connection
is loaded (`if (!connection) return`), otherwise an unconditional status
update of the matching row to "completed". -/
def endMeeting (connection : Option Connection) (connectionId : String)
    (db : List Connection) : List Connection :=
  match connection with
  | none => db
  | some _ => db.map (markCompleted connectionId)

/-- Concrete sample skill used by the witnesses below. -/
def skillA : Skill := ⟨"sk1", "ins"⟩

/-- Concrete sample connection (accepted, with a joined skill row). -/
def connA : Connection := ⟨"c1", "sk1", "lrn", "accepted", some skillA⟩

/-- Concrete sample connection (accepted, skill row null). -/
def connB : Connection := ⟨"c1", "sk1", "lrn", "accepted", none⟩

/-- The optional head of a list is an element of the list. -/
theorem mem_of_head_eq_some {α : Type} {l : List α} {a : α}
    (h : l.head? = some a) : a ∈ l := by
  cases l with
  | nil => cases h
  | cons x xs =>
    have hx : x = a := by simpa using h
    rw [← hx]
    exact List.mem_cons_self x xs

/-- A record returned by the accepted-status query matches the id and is
accepted. -/
theorem queryAccepted_spec {db : List Connection} {cid : String} {s : Connection}
    (h : queryAccepted db cid = some s) :
    s ∈ db ∧ s.id = cid ∧ s.status = "accepted" := by
  have hmem : s ∈ db.filter (fun c => c.id == cid && c.status == "accepted") :=
    mem_of_head_eq_some h
  rw [List.mem_filter] at hmem
  obtain ⟨hdb, hp⟩ := hmem
  simp only [Bool.and_eq_true, beq_iff_eq] at hp
  exact ⟨hdb, hp.1, hp.2⟩

/-- When no row matches the query, it returns nothing. -/
theorem queryAccepted_eq_none {db : List Connection} {cid : String}
    (h : ∀ c ∈ db, ¬(c.id = cid ∧ c.status = "accepted")) :
    queryAccepted db cid = none := by
  unfold queryAccepted
  have hfil : db.filter (fun c => c.id == cid && c.status == "accepted") = [] := by
    rw [List.filter_eq_nil_iff]
    intro c hc
    simp only [Bool.and_eq_true, beq_iff_eq]
    exact h c hc
  rw [hfil]
  rfl

/-- C1: `load` returns the session record only if the caller is the
learner or the instructor of the skill and the status of the record is "accepted";
when no accepted record with the id exists it yields the not-found error,
and when the caller is neither participant it yields the authorization
error, returning no session data. -/
theorem C1_load_access_control (db : List Connection) (cid userId : String) :
    (∀ s, fetchConnection db cid userId = LoadResult.ok s →
      s.id = cid ∧ s.status = "accepted" ∧
        (s.learner_id = userId ∨ isInstructor s userId = true)) ∧
    ((∀ c ∈ db, ¬(c.id = cid ∧ c.status = "accepted")) →
      fetchConnection db cid userId = LoadResult.notFound) ∧
    (∀ s, queryAccepted db cid = some s → s.learner_id ≠ userId →
      isInstructor s userId = false →
      fetchConnection db cid userId = LoadResult.unauthorized) := by
  refine ⟨?_, ?_, ?_⟩
  · intro s hs
    unfold fetchConnection at hs
    split at hs
    · cases hs
    · next data hq =>
      split at hs
      · cases hs
      · next hauth =>
        injection hs with hds
        subst hds
        obtain ⟨_, hid, hst⟩ := queryAccepted_spec hq
        refine ⟨hid, hst, ?_⟩
        rcases not_and_or.mp hauth with h1 | h2
        · exact Or.inl (not_not.mp h1)
        · cases hb : isInstructor data userId with
          | false => exact absurd hb h2
          | true => exact Or.inr rfl
  · intro hnone
    unfold fetchConnection
    rw [queryAccepted_eq_none hnone]
  · intro s hq hlearn hinst
    unfold fetchConnection
    rw [hq]
    exact if_pos ⟨hlearn, hinst⟩

/-- Witness for C1: at the concrete database `[connA]`, a third identity
"eve" is rejected with the authorization error. -/
theorem C1_load_access_control_witness :
    queryAccepted [connA] "c1" = some connA ∧
    fetchConnection [connA] "c1" "eve" = LoadResult.unauthorized :=
  ⟨by decide,
   (C1_load_access_control [connA] "c1" "eve").2.2 connA (by decide) (by decide) (by decide)⟩

/-- Marking a row completed twice is the same as marking it once. -/
theorem markCompleted_idem (cid : String) (c : Connection) :
    markCompleted cid (markCompleted cid c) = markCompleted cid c := by
  by_cases h : c.id = cid <;> simp [markCompleted, h]

/-- C2: calling `end` twice results in exactly one status transition: the
accepted row is completed by the first call, and the second call leaves
the database unchanged (a no-op, not an error). -/
theorem C2_end_idempotent (connection : Option Connection) (connectionId : String)
    (db : List Connection) :
    endMeeting connection connectionId (endMeeting connection connectionId db)
      = endMeeting connection connectionId db ∧
    (∀ c ∈ db, c.id = connectionId → connection.isSome →
      { c with status := "completed" } ∈ endMeeting connection connectionId db) := by
  constructor
  · cases connection with
    | none => rfl
    | some conn =>
      show (db.map (markCompleted connectionId)).map (markCompleted connectionId)
          = db.map (markCompleted connectionId)
      rw [List.map_map]
      apply List.map_congr_left
      intro c _
      exact markCompleted_idem connectionId c
  · intro c hc hid hsome
    cases connection with
    | none => cases hsome
    | some conn =>
      show { c with status := "completed" } ∈ db.map (markCompleted connectionId)
      have : markCompleted connectionId c = { c with status := "completed" } := by
        unfold markCompleted
        rw [if_pos hid]
      rw [← this]
      exact List.mem_map_of_mem (markCompleted connectionId) hc

/-- Witness for C2 at the concrete database `[connB]` with an accepted
row. -/
theorem C2_end_idempotent_witness :
    endMeeting (some connB) "c1" (endMeeting (some connB) "c1" [connB])
      = endMeeting (some connB) "c1" [connB] ∧
    { connB with status := "completed" } ∈ endMeeting (some connB) "c1" [connB] := by
  have h := C2_end_idempotent (some connB) "c1" [connB]
  exact ⟨h.1, h.2 connB (by decide) (by decide) rfl⟩

/-- A chat message as built in sendMessage: sender id, content, and the
timestamp (`new Date()` modelled as a Nat clock). -/
structure Message where
  sender_id : String
  content : String
  timestamp : Nat
deriving DecidableEq, Repr

/-- Whitespace characters for the purpose of trimming. -/
def isWhitespaceChar (c : Char) : Bool :=
  c == ' ' || c == '\t' || c == '\n' || c == '\r'

/-- The JS guard `!newMessage.trim()`: the trimmed string is falsy (empty)
exactly when every character of the string is whitespace. -/
def trimIsEmpty (s : String) : Bool :=
  s.data.all isWhitespaceChar

/-- The chat-relevant state of the meeting view: the local message list,
the text of the input field, and the loaded connection. -/
structure ChatState where
  messages : List Message
  newMessage : String
  connection : Option Connection
deriving DecidableEq, Repr

/-- The function sendMessage (Meeting.tsx lines 296-313): guard
`if (!newMessage.trim() || !connection) return;`; otherwise build the
message, broadcast it on the chat topic (the second component of the
result), append it to the local list, and clear the input field. -/
def sendMessage (userId : String) (now : Nat) (st : ChatState) :
    ChatState × Option Message :=
  if trimIsEmpty st.newMessage = true ∨ st.connection = none then
    (st, none)
  else
    ({ st with
        messages := st.messages ++ [⟨userId, st.newMessage, now⟩],
        newMessage := "" },
     some ⟨userId, st.newMessage, now⟩)

/-- A two-party chat system: the local state of the sender and the message
list of the peer. The peer receives a broadcast only while subscribed to
the chat topic; chat has no persistence or replay. -/
structure TwoParty where
  sender : ChatState
  peerMessages : List Message
deriving DecidableEq, Repr

/-- One send step of the two-party system: the sender runs sendMessage;
the broadcast, if any, reaches the peer only when the peer is
subscribed. -/
def systemSend (userId : String) (now : Nat) (peerSubscribed : Bool)
    (sys : TwoParty) : TwoParty :=
  match sendMessage userId now sys.sender with
  | (st, none) => { sender := st, peerMessages := sys.peerMessages }
  | (st, some m) =>
    { sender := st,
      peerMessages := if peerSubscribed then sys.peerMessages ++ [m] else sys.peerMessages }

/-- C4: sending a non-empty message while a connection is loaded appends
the message to the local list of the sender, whether or not the peer is
subscribed; when the peer is not subscribed the broadcast is lost (the
peer list is unchanged) while the sender still sees the message. -/
theorem C4_chat_local_echo (userId : String) (now : Nat) (peerSubscribed : Bool)
    (sys : TwoParty)
    (h1 : trimIsEmpty sys.sender.newMessage = false)
    (h2 : sys.sender.connection ≠ none) :
    (systemSend userId now peerSubscribed sys).sender.messages
      = sys.sender.messages ++ [⟨userId, sys.sender.newMessage, now⟩] ∧
    (peerSubscribed = false →
      (systemSend userId now peerSubscribed sys).peerMessages = sys.peerMessages) := by
  have hguard : ¬(trimIsEmpty sys.sender.newMessage = true ∨ sys.sender.connection = none) := by
    intro hor
    rcases hor with ha | hb
    · rw [h1] at ha; cases ha
    · exact h2 hb
  constructor
  · unfold systemSend sendMessage
    rw [if_neg hguard]
  · intro hsub
    unfold systemSend sendMessage
    rw [if_neg hguard]
    simp only [hsub]
    rfl

/-- Witness for C4 at a concrete state with an unsubscribed peer. -/
theorem C4_chat_local_echo_witness :
    (systemSend "lrn" 5 false ⟨⟨[], "hello", some connA⟩, []⟩).sender.messages
      = [] ++ [⟨"lrn", "hello", 5⟩] ∧
    (false = false →
      (systemSend "lrn" 5 false ⟨⟨[], "hello", some connA⟩, []⟩).peerMessages = []) :=
  C4_chat_local_echo "lrn" 5 false ⟨⟨[], "hello", some connA⟩, []⟩ (by decide) (by decide)

/-- C10: when the message is empty or whitespace-only, or no connection is
loaded, sendMessage changes nothing: no broadcast, no append, and the
input field keeps its value. -/
theorem C10_send_guard_noop (userId : String) (now : Nat) (st : ChatState)
    (h : trimIsEmpty st.newMessage = true ∨ st.connection = none) :
    sendMessage userId now st = (st, none) := by
  unfold sendMessage
  rw [if_pos h]

/-- Witness for C10 at a whitespace-only input with a loaded connection. -/
theorem C10_send_guard_noop_witness :
    sendMessage "lrn" 5 ⟨[], "  ", some connA⟩ = (⟨[], "  ", some connA⟩, none) :=
  C10_send_guard_noop "lrn" 5 ⟨[], "  ", some connA⟩ (by decide)

/-- Change-feed event types delivered by the realtime channel. -/
inductive EventType where
  | INSERT
  | UPDATE
  | DELETE
deriving DecidableEq, Repr

/-- The payload delivered to the connection-updates handler: the event
type and the status of the new row (`payload.new.status`). -/
structure ChangePayload where
  eventType : EventType
  newStatus : String
deriving DecidableEq, Repr

/-- The observable effects of the connection-updates handler on the
meeting view: the toasts raised so far and whether `navigate` has run. -/
structure ViewState where
  toasts : List String
  exited : Bool
deriving DecidableEq, Repr

/-- The handler of the `meeting:` change-feed channel (Meeting.tsx lines
138-149): on an UPDATE whose new status is not "accepted", raise the
"Meeting Ended" toast and navigate away; every other event leaves the
view unchanged. The handler keeps no flag recording that the event was
already raised and does not distinguish self-caused updates. -/
def onConnectionChange (st : ViewState) (p : ChangePayload) : ViewState :=
  match p.eventType with
  | EventType.UPDATE =>
    if p.newStatus ≠ "accepted" then
      { st with toasts := st.toasts ++ ["Meeting Ended"], exited := true }
    else st
  | _ => st

/-- C5 fails on the code: delivering the same non-accepted UPDATE twice
raises the "Meeting Ended" termination event twice, so the handler is not
idempotent under duplicate delivery and the event is not raised exactly
once. -/
theorem C5_counterexample :
    (onConnectionChange (onConnectionChange ⟨[], false⟩ ⟨EventType.UPDATE, "completed"⟩)
        ⟨EventType.UPDATE, "completed"⟩).toasts
      = ["Meeting Ended", "Meeting Ended"] := by
  decide

/-- C5 amended: the view raises the termination event once per delivered
UPDATE whose new status is not "accepted" — duplicate deliveries raise it
again, and a transition caused by this participant also raises it when
delivered — and every other delivery leaves the view unchanged; teardown
is duplicate-safe in that the exit flag simply stays set. -/
theorem C5_termination_per_delivery (st : ViewState) (p : ChangePayload) :
    (p.eventType = EventType.UPDATE → p.newStatus ≠ "accepted" →
      (onConnectionChange st p).toasts = st.toasts ++ ["Meeting Ended"] ∧
      (onConnectionChange st p).exited = true) ∧
    (p.eventType = EventType.UPDATE → p.newStatus = "accepted" →
      onConnectionChange st p = st) ∧
    (p.eventType ≠ EventType.UPDATE → onConnectionChange st p = st) := by
  refine ⟨?_, ?_, ?_⟩
  · intro hu hs
    unfold onConnectionChange
    rw [hu]
    rw [if_pos hs]
    exact ⟨rfl, rfl⟩
  · intro hu hs
    unfold onConnectionChange
    rw [hu]
    simp only [hs]
    rfl
  · intro hu
    unfold onConnectionChange
    cases hp : p.eventType with
    | INSERT => rfl
    | UPDATE => exact absurd hp hu
    | DELETE => rfl

/-- Witness for C5 amended at a concrete delivered update. -/
theorem C5_termination_per_delivery_witness :
    (onConnectionChange ⟨[], false⟩ ⟨EventType.UPDATE, "completed"⟩).toasts
      = [] ++ ["Meeting Ended"] ∧
    (onConnectionChange ⟨[], false⟩ ⟨EventType.UPDATE, "completed"⟩).exited = true :=
  (C5_termination_per_delivery ⟨[], false⟩ ⟨EventType.UPDATE, "completed"⟩).1
    rfl (by decide)

/-- In-memory negotiation state of the RTCPeerConnection: the local and
remote session descriptions and the remote candidates that were
successfully added. -/
structure PeerConnection where
  localDescription : Option String
  remoteDescription : Option String
  appliedCandidates : List String
deriving DecidableEq, Repr

/-- Environment model of RTCPeerConnection.addIceCandidate: adding a
candidate while no remote description is set rejects with
InvalidStateError; otherwise the candidate is applied. -/
def addIceCandidate (pc : PeerConnection) (cand : String) :
    Except String PeerConnection :=
  match pc.remoteDescription with
  | none => Except.error "InvalidStateError"
  | some _ =>
    Except.ok { pc with appliedCandidates := pc.appliedCandidates ++ [cand] }

/-- Environment model of createOffer: the SDP the browser produces. -/
def createOfferSdp : String := "offer-sdp"

/-- Environment model of createAnswer: the SDP the browser produces from
the remote offer. -/
def createAnswerSdp (remote : String) : String := "answer-to-" ++ remote

/-- setLocalDescription on the peer connection. -/
def setLocalDescription (pc : PeerConnection) (sdp : String) : PeerConnection :=
  { pc with localDescription := some sdp }

/-- setRemoteDescription on the peer connection. -/
def setRemoteDescription (pc : PeerConnection) (sdp : String) : PeerConnection :=
  { pc with remoteDescription := some sdp }

/-- A message on the signaling topic: the broadcast payloads of
webRTCUtils.ts, each tagged with the id of its sender (payload.userId). -/
inductive SigMsg where
  | offer (sdp : String) (senderId : String)
  | answer (sdp : String) (senderId : String)
  | iceCandidate (candidate : String) (senderId : String)
deriving DecidableEq, Repr

/-- The sender tag of a signaling message. -/
def SigMsg.senderId : SigMsg → String
  | SigMsg.offer _ s => s
  | SigMsg.answer _ s => s
  | SigMsg.iceCandidate _ s => s

/-- Whether a signaling message is an offer. -/
def SigMsg.isOffer : SigMsg → Bool
  | SigMsg.offer _ _ => true
  | _ => false

/-- The broadcast handlers registered on the signaling channel
(webRTCUtils.ts lines 79-110), as one message-ingestion function: process
one delivered message, returning the new peer connection and the messages
published in response.
* offer: when the sender is not self, set the remote description, create
  an answer, set it as local description, and publish the answer;
* answer: when the sender is not self, set the remote description;
* ice-candidate: when the sender is not self, call addIceCandidate; a
  failure is caught and only logged (lines 104-108), so the candidate is
  dropped — the code keeps no queue of early candidates. -/
def handleSignal (userId : String) (pc : PeerConnection) (m : SigMsg) :
    PeerConnection × List SigMsg :=
  match m with
  | SigMsg.offer sdp sender =>
    if sender ≠ userId then
      (setLocalDescription (setRemoteDescription pc sdp) (createAnswerSdp sdp),
       [SigMsg.answer (createAnswerSdp sdp) userId])
    else (pc, [])
  | SigMsg.answer sdp sender =>
    if sender ≠ userId then (setRemoteDescription pc sdp, []) else (pc, [])
  | SigMsg.iceCandidate cand sender =>
    if sender ≠ userId then
      match addIceCandidate pc cand with
      | Except.ok pc2 => (pc2, [])
      | Except.error _ => (pc, [])
    else (pc, [])

/-- The role-dependent part of setupPeerConnection (webRTCUtils.ts lines
62-76): when this participant is the instructor, create the offer, set it
as local description, and publish it tagged with the own id; any other
participant publishes nothing at setup. -/
def setupOffer (userId instructorId : String) : PeerConnection × List SigMsg :=
  if userId = instructorId then
    (setLocalDescription ⟨none, none, []⟩ createOfferSdp,
     [SigMsg.offer createOfferSdp userId])
  else (⟨none, none, []⟩, [])

/-- The signaling-relevant actions of setupPeerConnection. -/
inductive SetupAction where
  | createOffer
  | setLocalDesc
  | publishOffer
  | subscribeSignaling
deriving DecidableEq, Repr

/-- The actions of setupPeerConnection in source order: the instructor
branch (lines 62-76) runs before the subscription to the signaling
channel is activated (line 111), and nothing waits for a subscription
confirmation. -/
def setupActions (userId instructorId : String) : List SetupAction :=
  (if userId = instructorId then
     [SetupAction.createOffer, SetupAction.setLocalDesc, SetupAction.publishOffer]
   else []) ++ [SetupAction.subscribeSignaling]

/-- Every publication of the offer in a trace happens strictly after the
signaling subscription was activated. -/
def publishAfterSubscribe (tr : List SetupAction) : Prop :=
  ∀ i : Fin tr.length, tr.get i = SetupAction.publishOffer →
    ∃ j : Fin tr.length, j.val < i.val ∧ tr.get j = SetupAction.subscribeSignaling

/-- In the instructor trace the offer is published before the
subscription. -/
theorem not_publishAfterSubscribe_offer_first :
    ¬ publishAfterSubscribe
      [SetupAction.createOffer, SetupAction.setLocalDesc,
       SetupAction.publishOffer, SetupAction.subscribeSignaling] := by
  unfold publishAfterSubscribe
  decide

/-- No signaling handler ever publishes an offer. -/
theorem handleSignal_no_offer (userId : String) (pc : PeerConnection) (m : SigMsg) :
    ((handleSignal userId pc m).2).filter SigMsg.isOffer = [] := by
  cases m with
  | offer sdp sender =>
    simp only [handleSignal]
    by_cases hs : sender ≠ userId
    · rw [if_pos hs]; rfl
    · rw [if_neg hs]; rfl
  | answer sdp sender =>
    simp only [handleSignal]
    by_cases hs : sender ≠ userId
    · rw [if_pos hs]; rfl
    · rw [if_neg hs]; rfl
  | iceCandidate cand sender =>
    simp only [handleSignal]
    by_cases hs : sender ≠ userId
    · rw [if_pos hs]
      cases haic : addIceCandidate pc cand with
      | ok pc2 => rfl
      | error e => rfl
    · rw [if_neg hs]; rfl

/-- C3: the code violates the queueing requirement. A candidate delivered
from the peer before any remote description exists is handed to
addIceCandidate immediately, the InvalidStateError is caught and only
logged, and nothing queues or replays it, so it is never applied — while
a candidate delivered after the answer set the remote description is
applied. -/
theorem C3_early_candidate_dropped :
    ((handleSignal "me" ⟨none, none, []⟩ (SigMsg.iceCandidate "cand1" "peer")).1
      = ⟨none, none, []⟩) ∧
    ((handleSignal "me"
        (handleSignal "me"
          (handleSignal "me" ⟨none, none, []⟩ (SigMsg.iceCandidate "cand1" "peer")).1
          (SigMsg.answer "sdp-a" "peer")).1
        (SigMsg.iceCandidate "cand2" "peer")).1.appliedCandidates
      = ["cand2"]) := by
  decide

/-- C6 fails on the code: in the setup trace of the instructor, the offer
is published before the signaling subscription is activated, not after a
confirmation of it. -/
theorem C6_counterexample :
    setupActions "ins" "ins"
      = [SetupAction.createOffer, SetupAction.setLocalDesc,
         SetupAction.publishOffer, SetupAction.subscribeSignaling] ∧
    ¬ publishAfterSubscribe (setupActions "ins" "ins") := by
  have htr : setupActions "ins" "ins"
      = [SetupAction.createOffer, SetupAction.setLocalDesc,
         SetupAction.publishOffer, SetupAction.subscribeSignaling] := by
    decide
  refine ⟨htr, ?_⟩
  rw [htr]
  exact not_publishAfterSubscribe_offer_first

/-- C6 amended: the instructor publishes its offer before its signaling
subscription is activated (there is no confirmation wait), and the
responder never publishes an offer: its setup publishes nothing and no
signaling handler publishes an offer. -/
theorem C6_offer_before_subscribe (userId instructorId : String)
    (pc : PeerConnection) :
    (userId = instructorId →
      ¬ publishAfterSubscribe (setupActions userId instructorId)) ∧
    (userId ≠ instructorId →
      (setupOffer userId instructorId).2 = [] ∧
      SetupAction.publishOffer ∉ setupActions userId instructorId) ∧
    (∀ m, ((handleSignal userId pc m).2).filter SigMsg.isOffer = []) := by
  refine ⟨?_, ?_, ?_⟩
  · intro h
    subst h
    have htr : setupActions userId userId
        = [SetupAction.createOffer, SetupAction.setLocalDesc,
           SetupAction.publishOffer, SetupAction.subscribeSignaling] := by
      simp [setupActions]
    rw [htr]
    exact not_publishAfterSubscribe_offer_first
  · intro h
    constructor
    · unfold setupOffer
      rw [if_neg h]
    · simp [setupActions, h]
  · intro m
    exact handleSignal_no_offer userId pc m

/-- Witness for C6 amended at concrete instructor and learner
identities. -/
theorem C6_offer_before_subscribe_witness :
    ¬ publishAfterSubscribe (setupActions "ins" "ins") ∧
    (setupOffer "lrn" "ins").2 = [] :=
  ⟨(C6_offer_before_subscribe "ins" "ins" ⟨none, none, []⟩).1 rfl,
   ((C6_offer_before_subscribe "lrn" "ins" ⟨none, none, []⟩).2.1 (by decide)).1⟩

/-- C8: a signaling message whose sender tag equals the own identity of
the receiving participant leaves the peer connection unchanged and
publishes nothing: no remote description is set, no answer is sent, no
candidate is added. -/
theorem C8_self_echo_suppression (userId : String) (pc : PeerConnection)
    (m : SigMsg) (h : m.senderId = userId) :
    handleSignal userId pc m = (pc, []) := by
  cases m with
  | offer sdp sender =>
    have hs : sender = userId := h
    simp only [handleSignal]
    rw [if_neg (not_not.mpr hs)]
  | answer sdp sender =>
    have hs : sender = userId := h
    simp only [handleSignal]
    rw [if_neg (not_not.mpr hs)]
  | iceCandidate cand sender =>
    have hs : sender = userId := h
    simp only [handleSignal]
    rw [if_neg (not_not.mpr hs)]

/-- Witness for C8 at a concrete self-echoed offer. -/
theorem C8_self_echo_suppression_witness :
    handleSignal "me" ⟨none, none, []⟩ (SigMsg.offer "sdp1" "me")
      = (⟨none, none, []⟩, []) :=
  C8_self_echo_suppression "me" ⟨none, none, []⟩ (SigMsg.offer "sdp1" "me") rfl

/-- C9: exactly the instructor creates and publishes the offer — the
setup of the instructor publishes it and the setup of the learner
publishes nothing; the learner, on receiving the offer of the instructor,
sets it as remote description, creates the answer, sets it as local
description, and publishes the answer; and the learner never publishes an
offer, neither at setup nor from any handler. -/
theorem C9_offer_answer_roles (learnerId instructorId sdp : String)
    (pc : PeerConnection) (hne : learnerId ≠ instructorId) :
    (setupOffer instructorId instructorId).2
      = [SigMsg.offer createOfferSdp instructorId] ∧
    (setupOffer learnerId instructorId).2 = [] ∧
    handleSignal learnerId pc (SigMsg.offer sdp instructorId)
      = ({ pc with remoteDescription := some sdp,
                   localDescription := some (createAnswerSdp sdp) },
         [SigMsg.answer (createAnswerSdp sdp) learnerId]) ∧
    (∀ m, ((handleSignal learnerId pc m).2).filter SigMsg.isOffer = []) := by
  refine ⟨?_, ?_, ?_, ?_⟩
  · unfold setupOffer
    rw [if_pos rfl]
  · unfold setupOffer
    rw [if_neg hne]
  · simp only [handleSignal]
    rw [if_pos (Ne.symm hne)]
    rfl
  · intro m
    exact handleSignal_no_offer learnerId pc m

/-- Witness for C9 at concrete identities and offer. -/
theorem C9_offer_answer_roles_witness :
    (setupOffer "ins" "ins").2 = [SigMsg.offer createOfferSdp "ins"] ∧
    (setupOffer "lrn" "ins").2 = [] ∧
    handleSignal "lrn" ⟨none, none, []⟩ (SigMsg.offer "sdp1" "ins")
      = (⟨some (createAnswerSdp "sdp1"), some "sdp1", []⟩,
         [SigMsg.answer (createAnswerSdp "sdp1") "lrn"]) := by
  have h := C9_offer_answer_roles "lrn" "ins" "sdp1" ⟨none, none, []⟩ (by decide)
  exact ⟨h.1, h.2.1, h.2.2.1⟩

/-- The resources held by the meeting view: the three realtime channels
the view subscribes (chat, connection updates, presence), the ids of the
currently live media tracks, and the stream value captured by the cleanup
closure of the effect. The stream is React state initialised to null and
is not in the dependency array of the effect, so the cleanup closure sees
the value from the render in which the effect ran — null on mount. -/
structure Resources where
  chatSubscribed : Bool
  connectionSubscribed : Bool
  presenceSubscribed : Bool
  activeTracks : List String
  streamAtEffect : Option (List String)
deriving DecidableEq, Repr

/-- Stopping the tracks of the captured stream removes them from the live
set; a null capture stops nothing. -/
def stopCapturedTracks (active : List String) (captured : Option (List String)) :
    List String :=
  match captured with
  | some ts => active.filter (fun t => !(ts.contains t))
  | none => active

/-- The effect cleanup (Meeting.tsx lines 155-161): unsubscribe the chat
channel and the connection-updates channel and stop the tracks of the
captured stream. The presence channel created by setupPresenceChannel is
never unsubscribed (its handle is discarded at the call site, line 104),
and the cleanup returned by setupPeerConnection (close the peer
connection, unsubscribe signaling) is never invoked from the view. -/
def effectCleanup (r : Resources) : Resources :=
  { r with
      chatSubscribed := false,
      connectionSubscribed := false,
      activeTracks := stopCapturedTracks r.activeTracks r.streamAtEffect }

/-- The stream the effect closure captured on mount: the initial null. -/
def mountCapturedStream : Option (List String) := none

/-- C7 fails on the code: at a state where the presence channel is
subscribed and an audio track was acquired after mount (so the captured
stream is the null from mount), the cleanup leaves the presence
subscription live and the track running. -/
theorem C7_counterexample :
    (effectCleanup ⟨true, true, true, ["audio0"], mountCapturedStream⟩).presenceSubscribed
      = true ∧
    (effectCleanup ⟨true, true, true, ["audio0"], mountCapturedStream⟩).activeTracks
      = ["audio0"] := by
  decide

/-- C7 amended: the cleanup releases the chat and connection-update
subscriptions, leaves the presence subscription untouched, and stops only
the tracks of the stream captured when the effect ran — with the null
capture of mount, no track is stopped. -/
theorem C7_cleanup_partial_release (r : Resources) :
    (effectCleanup r).chatSubscribed = false ∧
    (effectCleanup r).connectionSubscribed = false ∧
    (effectCleanup r).presenceSubscribed = r.presenceSubscribed ∧
    (r.streamAtEffect = mountCapturedStream →
      (effectCleanup r).activeTracks = r.activeTracks) := by
  refine ⟨rfl, rfl, rfl, ?_⟩
  intro h
  simp [effectCleanup, stopCapturedTracks, h, mountCapturedStream]

/-- Witness for C7 amended at the concrete post-session state. -/
theorem C7_cleanup_partial_release_witness :
    (effectCleanup ⟨true, true, true, ["audio0"], mountCapturedStream⟩).activeTracks
      = ["audio0"] :=
  (C7_cleanup_partial_release ⟨true, true, true, ["audio0"], mountCapturedStream⟩).2.2.2 rfl

end SkillSwap
